import Mathlib

/-!
Shallow embedding of the anderson-0/nestjs-boilerplate repository,
covering the feature-flag configuration service, the three Todo
repository implementations (Prisma, Drizzle, Mongoose), the unified
error-tracking dispatcher and the Zod validation pipe, together with
theorems settling the frozen claims about them.

Conventions of the embedding:
* timestamps are natural numbers (`Nat`), passed explicitly where the
  source calls `new Date()`;
* a JavaScript value that may be `undefined` is an `Option`;
* a function that may `throw` returns `Except String _`;
* `metadata` values (`Record<string, any>`) are opaque to every modelled
  operation, so they are modelled as `List (String × String)`.
-/

/-! ## Environment / ConfigService (NestJS `ConfigService`) -/

/-- The process environment: `get` returns the raw value of a variable,
`none` when the variable is unset. -/
structure Env where
  get : String → Option String

/-- `configService.get(name, defaultValue)`: the value when set, otherwise
the default. -/
def cfgGet (env : Env) (name defaultValue : String) : String :=
  (env.get name).getD defaultValue

/-- JavaScript falsiness of `configService.get(name)` (no default): true
when the variable is unset or holds the empty string. -/
def flagBlank (env : Env) (name : String) : Bool :=
  match env.get name with
  | none => true
  | some s => s == ""

/-! ## feature-providers.enum.ts: the `VALID_PROVIDERS` collections -/

def VALID_PROVIDERS_DATABASE : List String :=
  ["prisma-postgresql", "drizzle-postgresql", "mongoose-mongodb"]

def VALID_PROVIDERS_ERROR_TRACKING : List String :=
  ["bugsnag", "sentry", "posthog", "none"]

def VALID_PROVIDERS_AUTH : List String :=
  ["composite", "bearer-only", "api-key-only", "none"]

def VALID_PROVIDERS_CACHE : List String :=
  ["redis", "memory", "none"]

def VALID_PROVIDERS_DOCUMENTATION : List String :=
  ["swagger", "none"]

def VALID_PROVIDERS_LOGGING : List String :=
  ["detailed", "basic", "none"]

def VALID_PROVIDERS_PERFORMANCE : List String :=
  ["full", "basic", "none"]

/-! ## FeatureFlagsService (feature-flags.config.ts) -/

/-- The validated configuration snapshot (`FeatureFlagsConfig`). -/
structure FeatureFlagsConfig where
  database : String
  errorTracking : String
  auth : String
  cache : String
  documentation : String
  logging : String
  performance : String
deriving Repr, DecidableEq

/-- `FeatureFlagsService.getValidatedProvider`: reads the option with its
default, returns it when it is a member of the valid set, otherwise
throws `Invalid <envVar>: "<value>". Valid options: ...`. -/
def FeatureFlagsService.getValidatedProvider (env : Env) (envVar : String)
    (validOptions : List String) (defaultValue : String) : Except String String :=
  let value := cfgGet env envVar defaultValue
  if validOptions.contains value then
    Except.ok value
  else
    Except.error ("Invalid " ++ envVar ++ ": \"" ++ value ++ "\". Valid options: "
      ++ String.intercalate ", " validOptions)

/-- The `Feature "<name>" has no provider selected` check for one entry of
`Object.entries(config)` (a provider is JS-falsy only as the empty string). -/
def noProviderError (feature provider : String) : List String :=
  if provider == "" then ["Feature \"" ++ feature ++ "\" has no provider selected"] else []

/-- All seven `has no provider selected` checks, in `Object.entries` order. -/
def noProviderErrors (config : FeatureFlagsConfig) : List String :=
  noProviderError "database" config.database
    ++ noProviderError "errorTracking" config.errorTracking
    ++ noProviderError "auth" config.auth
    ++ noProviderError "cache" config.cache
    ++ noProviderError "documentation" config.documentation
    ++ noProviderError "logging" config.logging
    ++ noProviderError "performance" config.performance

/-- Cross-field rule: `mongoose-mongodb` requires `MONGODB_URL`. -/
def mongoErrors (env : Env) (config : FeatureFlagsConfig) : List String :=
  if config.database == "mongoose-mongodb" then
    if flagBlank env "MONGODB_URL" then
      ["MONGODB_URL is required when using mongoose-mongodb database provider"]
    else []
  else []

/-- Cross-field rule: the PostgreSQL providers require `DATABASE_URL`. -/
def pgErrors (env : Env) (config : FeatureFlagsConfig) : List String :=
  if ["prisma-postgresql", "drizzle-postgresql"].contains config.database then
    if flagBlank env "DATABASE_URL" then
      ["DATABASE_URL is required when using PostgreSQL database providers"]
    else []
  else []

/-- Cross-field rule: the `redis` cache provider requires `REDIS_HOST`. -/
def redisErrors (env : Env) (config : FeatureFlagsConfig) : List String :=
  if config.cache == "redis" then
    if flagBlank env "REDIS_HOST" then
      ["REDIS_HOST is required when using redis cache provider"]
    else []
  else []

/-- The `errors` array accumulated by
`FeatureFlagsService.validateConfiguration`, in source order. -/
def validateConfigurationErrors (env : Env) (config : FeatureFlagsConfig) : List String :=
  noProviderErrors config ++ mongoErrors env config ++ pgErrors env config
    ++ redisErrors env config

/-- The aggregated message thrown when the errors array is non-empty. -/
def aggregateErrorMessage (errors : List String) : String :=
  "Feature flag validation failed:\n"
    ++ String.intercalate "\n" (errors.map (fun e => "  - " ++ e))

/-- `FeatureFlagsService.validateConfiguration`: throws the aggregated
message when any error was collected, otherwise succeeds. -/
def FeatureFlagsService.validateConfiguration (env : Env)
    (config : FeatureFlagsConfig) : Except String Unit :=
  if (validateConfigurationErrors env config).isEmpty then
    Except.ok ()
  else
    Except.error (aggregateErrorMessage (validateConfigurationErrors env config))

/-- `FeatureFlagsService.loadAndValidateConfig`, the body of the
constructor: validates the seven enumerated options in source order (each
`getValidatedProvider` call throws on the spot), then runs the cross-field
validation. -/
def FeatureFlagsService.loadAndValidateConfig (env : Env) :
    Except String FeatureFlagsConfig :=
  match FeatureFlagsService.getValidatedProvider env "DATABASE_PROVIDER"
      VALID_PROVIDERS_DATABASE "prisma-postgresql" with
  | Except.error e => Except.error e
  | Except.ok database =>
  match FeatureFlagsService.getValidatedProvider env "ERROR_TRACKING_PROVIDER"
      VALID_PROVIDERS_ERROR_TRACKING "none" with
  | Except.error e => Except.error e
  | Except.ok errorTracking =>
  match FeatureFlagsService.getValidatedProvider env "AUTH_PROVIDER"
      VALID_PROVIDERS_AUTH "composite" with
  | Except.error e => Except.error e
  | Except.ok auth =>
  match FeatureFlagsService.getValidatedProvider env "CACHE_PROVIDER"
      VALID_PROVIDERS_CACHE "redis" with
  | Except.error e => Except.error e
  | Except.ok cache =>
  match FeatureFlagsService.getValidatedProvider env "DOCUMENTATION_PROVIDER"
      VALID_PROVIDERS_DOCUMENTATION "swagger" with
  | Except.error e => Except.error e
  | Except.ok documentation =>
  match FeatureFlagsService.getValidatedProvider env "LOGGING_PROVIDER"
      VALID_PROVIDERS_LOGGING "basic" with
  | Except.error e => Except.error e
  | Except.ok logging =>
  match FeatureFlagsService.getValidatedProvider env "PERFORMANCE_PROVIDER"
      VALID_PROVIDERS_PERFORMANCE "basic" with
  | Except.error e => Except.error e
  | Except.ok performance =>
    let config : FeatureFlagsConfig :=
      ⟨database, errorTracking, auth, cache, documentation, logging, performance⟩
    match FeatureFlagsService.validateConfiguration env config with
    | Except.error e => Except.error e
    | Except.ok _ => Except.ok config

/-- The error of the first enumerated-option check that fails, in the
constructor's check order; `none` when all seven values are legal. -/
def FeatureFlagsService.firstEnumError (env : Env) : Option String :=
  match FeatureFlagsService.getValidatedProvider env "DATABASE_PROVIDER"
      VALID_PROVIDERS_DATABASE "prisma-postgresql" with
  | Except.error e => some e
  | Except.ok _ =>
  match FeatureFlagsService.getValidatedProvider env "ERROR_TRACKING_PROVIDER"
      VALID_PROVIDERS_ERROR_TRACKING "none" with
  | Except.error e => some e
  | Except.ok _ =>
  match FeatureFlagsService.getValidatedProvider env "AUTH_PROVIDER"
      VALID_PROVIDERS_AUTH "composite" with
  | Except.error e => some e
  | Except.ok _ =>
  match FeatureFlagsService.getValidatedProvider env "CACHE_PROVIDER"
      VALID_PROVIDERS_CACHE "redis" with
  | Except.error e => some e
  | Except.ok _ =>
  match FeatureFlagsService.getValidatedProvider env "DOCUMENTATION_PROVIDER"
      VALID_PROVIDERS_DOCUMENTATION "swagger" with
  | Except.error e => some e
  | Except.ok _ =>
  match FeatureFlagsService.getValidatedProvider env "LOGGING_PROVIDER"
      VALID_PROVIDERS_LOGGING "basic" with
  | Except.error e => some e
  | Except.ok _ =>
  match FeatureFlagsService.getValidatedProvider env "PERFORMANCE_PROVIDER"
      VALID_PROVIDERS_PERFORMANCE "basic" with
  | Except.error e => some e
  | Except.ok _ => none

/-- The names of the enumerated options whose configured value lies outside
its fixed legal set. -/
def FeatureFlagsService.invalidEnumVars (env : Env) : List String :=
  (if VALID_PROVIDERS_DATABASE.contains (cfgGet env "DATABASE_PROVIDER" "prisma-postgresql")
    then [] else ["DATABASE_PROVIDER"])
  ++ (if VALID_PROVIDERS_ERROR_TRACKING.contains (cfgGet env "ERROR_TRACKING_PROVIDER" "none")
    then [] else ["ERROR_TRACKING_PROVIDER"])
  ++ (if VALID_PROVIDERS_AUTH.contains (cfgGet env "AUTH_PROVIDER" "composite")
    then [] else ["AUTH_PROVIDER"])
  ++ (if VALID_PROVIDERS_CACHE.contains (cfgGet env "CACHE_PROVIDER" "redis")
    then [] else ["CACHE_PROVIDER"])
  ++ (if VALID_PROVIDERS_DOCUMENTATION.contains (cfgGet env "DOCUMENTATION_PROVIDER" "swagger")
    then [] else ["DOCUMENTATION_PROVIDER"])
  ++ (if VALID_PROVIDERS_LOGGING.contains (cfgGet env "LOGGING_PROVIDER" "basic")
    then [] else ["LOGGING_PROVIDER"])
  ++ (if VALID_PROVIDERS_PERFORMANCE.contains (cfgGet env "PERFORMANCE_PROVIDER" "basic")
    then [] else ["PERFORMANCE_PROVIDER"])

/-! ## Substring containment (used to state what an error message reports) -/

/-- `leadsWith pat cs`: the character list `cs` starts with `pat`. -/
def leadsWith : List Char → List Char → Bool
  | [], _ => true
  | _ :: _, [] => false
  | p :: ps, c :: cs => p == c && leadsWith ps cs

/-- `occursIn pat cs`: `pat` occurs contiguously somewhere in `cs`. -/
def occursIn (pat : List Char) : List Char → Bool
  | [] => leadsWith pat []
  | c :: cs => leadsWith pat (c :: cs) || occursIn pat cs

/-- `mentions msg pat`: the string `pat` occurs in the string `msg`. -/
def mentions (msg pat : String) : Bool :=
  occursIn pat.toList msg.toList

/-- `mentions`, lifted to an `Except` error channel: true only when the
computation failed and its error message contains `pat`. -/
def mentionsErr {α : Type} (r : Except String α) (pat : String) : Bool :=
  match r with
  | Except.error m => mentions m pat
  | Except.ok _ => false

/-! ## Todo entity (todo.entity.ts) -/

/-- The `Todo` record. `metadata` values are opaque; timestamps are `Nat`. -/
structure Todo where
  id : String
  title : String
  description : Option String
  completed : Bool
  priority : Option String
  dueDate : Option Nat
  tags : List String
  metadata : Option (List (String × String))
  createdAt : Nat
  updatedAt : Nat
deriving Repr, DecidableEq

/-- `CreateTodoInput`: optional fields are absent (`none`) when the JSON
body omitted them. -/
structure CreateTodoInput where
  title : String
  description : Option String
  completed : Option Bool
  priority : Option String
  dueDate : Option Nat
  tags : Option (List String)
  metadata : Option (List (String × String))
deriving Repr, DecidableEq

/-- `UpdateTodoInput`: every field optional (a partial patch). -/
structure UpdateTodoInput where
  title : Option String
  description : Option String
  completed : Option Bool
  priority : Option String
  dueDate : Option Nat
  tags : Option (List String)
  metadata : Option (List (String × String))
deriving Repr, DecidableEq

/-- The empty patch, `update(id, {})`. -/
def emptyUpdate : UpdateTodoInput :=
  ⟨none, none, none, none, none, none, none⟩

/-! ## CreateTodoSchema (todo-schemas.ts) -/

/-- A request body for the create endpoint before Zod validation; `title`
is `none` when the required field is missing. -/
structure RawCreateInput where
  title : Option String
  description : Option String
  completed : Option Bool
  priority : Option String
  dueDate : Option Nat
  tags : Option (List String)
  metadata : Option (List (String × String))
deriving Repr, DecidableEq

/-- The value produced by a successful `CreateTodoSchema.parse`: the three
defaulted fields are now present. -/
structure ValidatedCreate where
  title : String
  description : Option String
  completed : Bool
  priority : String
  dueDate : Option Nat
  tags : List String
  metadata : Option (List (String × String))
deriving Repr, DecidableEq

/-- The issues Zod raises for the `title` field. -/
def titleIssues (title : Option String) : List String :=
  match title with
  | none => ["Required"]
  | some t =>
    (if t.length < 1 then ["Title is required"] else [])
      ++ (if t.length > 200 then ["Title must be less than 200 characters"] else [])

/-- The issues Zod raises for the `description` field. -/
def descriptionIssues (description : Option String) : List String :=
  match description with
  | none => []
  | some d => if d.length > 1000 then ["Description must be less than 1000 characters"] else []

/-- The issues Zod raises for the `priority` enum field. -/
def priorityIssues (priority : Option String) : List String :=
  match priority with
  | none => []
  | some p => if ["low", "medium", "high"].contains p then [] else ["Invalid enum value"]

/-- `CreateTodoSchema.parse`: collects the issues; on success, applies the
schema defaults `completed=false`, `priority="medium"`, `tags=[]`. -/
def CreateTodoSchema.parse (raw : RawCreateInput) : Except (List String) ValidatedCreate :=
  let issues := titleIssues raw.title ++ descriptionIssues raw.description
    ++ priorityIssues raw.priority
  if issues.isEmpty then
    Except.ok
      { title := raw.title.getD ""
        description := raw.description
        completed := raw.completed.getD false
        priority := raw.priority.getD "medium"
        dueDate := raw.dueDate
        tags := raw.tags.getD []
        metadata := raw.metadata }
  else
    Except.error issues

/-- The parsed DTO as it reaches a repository `create` call (the optional
fields of `CreateTodoInput` are all present after validation). -/
def ValidatedCreate.toInput (v : ValidatedCreate) : CreateTodoInput :=
  { title := v.title
    description := v.description
    completed := some v.completed
    priority := some v.priority
    dueDate := v.dueDate
    tags := some v.tags
    metadata := v.metadata }

/-! ## Sorting by `createdAt` (the `orderBy` / `sort` clauses) -/

/-- Insert into a list sorted ascending by `key`. -/
def insertAscBy {α : Type} (key : α → Nat) (t : α) : List α → List α
  | [] => [t]
  | u :: us => if key t ≤ key u then t :: u :: us else u :: insertAscBy key t us

/-- Sort ascending by `key` (SQL `ORDER BY key` with its default `ASC`). -/
def sortAscBy {α : Type} (key : α → Nat) (l : List α) : List α :=
  l.foldr (insertAscBy key) []

/-- Insert into a list sorted descending by `key`. -/
def insertDescBy {α : Type} (key : α → Nat) (t : α) : List α → List α
  | [] => [t]
  | u :: us => if key u ≤ key t then t :: u :: us else u :: insertDescBy key t us

/-- Sort descending by `key` (`orderBy: desc` / `sort(\x7b createdAt: -1 \x7d)`). -/
def sortDescBy {α : Type} (key : α → Nat) (l : List α) : List α :=
  l.foldr (insertDescBy key) []

/-- Merge one patch field: the patched value when provided, else the old. -/
def mergeField {α : Type} (patch old : Option α) : Option α :=
  match patch with
  | some v => some v
  | none => old

/-- The row produced by `.set(\x7b ...data, updatedAt: now \x7d)` /
`update(\x7b data \x7d)`: provided fields replace the stored ones,
`updatedAt` is refreshed. -/
def applyUpdateSet (now : Nat) (data : UpdateTodoInput) (t : Todo) : Todo :=
  { t with
    title := data.title.getD t.title
    description := mergeField data.description t.description
    completed := data.completed.getD t.completed
    priority := mergeField data.priority t.priority
    dueDate := mergeField data.dueDate t.dueDate
    tags := data.tags.getD t.tags
    metadata := mergeField data.metadata t.metadata
    updatedAt := now }

/-! ## DrizzleTodoRepository (drizzle-todo.repository.ts)

The `todos` table is a list of rows; `now` stands for `new Date()` and
`genId` for `createId()`. Per `schema.ts`, the `priority` column has the
database default `'medium'`, applied when the inserted object omits the
column. -/

structure DrizzleDB where
  rows : List Todo
deriving Repr, DecidableEq

/-- `DrizzleTodoRepository.create`: builds the new row (spread of `data`,
`tags: data.tags || []`, `completed: data.completed ?? false`, fresh
timestamps), inserts it and returns it. -/
def DrizzleTodoRepository.create (now : Nat) (genId : String)
    (data : CreateTodoInput) (db : DrizzleDB) : Todo × DrizzleDB :=
  let newTodo : Todo :=
    { id := genId
      title := data.title
      description := data.description
      completed := data.completed.getD false
      priority := some (data.priority.getD "medium")
      dueDate := data.dueDate
      tags := data.tags.getD []
      metadata := data.metadata
      createdAt := now
      updatedAt := now }
  (newTodo, ⟨db.rows ++ [newTodo]⟩)

/-- `DrizzleTodoRepository.findAll`: `select().orderBy(todos.createdAt)` —
ascending, the SQL default direction. -/
def DrizzleTodoRepository.findAll (db : DrizzleDB) : List Todo :=
  sortAscBy Todo.createdAt db.rows

/-- `DrizzleTodoRepository.findById`: first row matching the id, or
`null`. -/
def DrizzleTodoRepository.findById (id : String) (db : DrizzleDB) : Option Todo :=
  (db.rows.filter (fun t => t.id == id)).head?

/-- `DrizzleTodoRepository.update`: applies the `set` to every matching
row; returns the first returned row, `undefined` (here `none`) when no row
matched. -/
def DrizzleTodoRepository.update (now : Nat) (id : String)
    (data : UpdateTodoInput) (db : DrizzleDB) : Option Todo × DrizzleDB :=
  let updatedRows := (db.rows.filter (fun t => t.id == id)).map (applyUpdateSet now data)
  (updatedRows.head?,
    ⟨db.rows.map (fun t => if t.id == id then applyUpdateSet now data t else t)⟩)

/-- `DrizzleTodoRepository.delete`: deletes the matching rows and returns
the first deleted row; when no row matched, `returning()` is empty and the
method returns `undefined` (here `none`) without error. -/
def DrizzleTodoRepository.delete (id : String) (db : DrizzleDB) :
    Option Todo × DrizzleDB :=
  let deleted := db.rows.filter (fun t => t.id == id)
  (deleted.head?, ⟨db.rows.filter (fun t => !(t.id == id))⟩)

/-- `DrizzleTodoRepository.findByTags`: selects all rows ordered by
`createdAt` (ascending), then filters in memory with
`tags.some(tag => todo.tags.includes(tag))`. -/
def DrizzleTodoRepository.findByTags (tags : List String) (db : DrizzleDB) : List Todo :=
  (sortAscBy Todo.createdAt db.rows).filter
    (fun todo => tags.any (fun tag => todo.tags.contains tag))

/-! ## PrismaTodoRepository (prisma-todo.repository.ts)

The Prisma schema file is not under `src/`; the migration shows the
`priority` column default `'medium'` and `completed` default `false`. -/

structure PrismaDB where
  rows : List Todo
deriving Repr, DecidableEq

/-- `PrismaTodoRepository.create`: `prisma.todo.create` with the spread of
`data` and `tags: data.tags || []`; the column defaults fill `completed`
and `priority` when omitted, and the client assigns id and timestamps. -/
def PrismaTodoRepository.create (now : Nat) (genId : String)
    (data : CreateTodoInput) (db : PrismaDB) : Todo × PrismaDB :=
  let created : Todo :=
    { id := genId
      title := data.title
      description := data.description
      completed := data.completed.getD false
      priority := some (data.priority.getD "medium")
      dueDate := data.dueDate
      tags := data.tags.getD []
      metadata := data.metadata
      createdAt := now
      updatedAt := now }
  (created, ⟨db.rows ++ [created]⟩)

/-- `PrismaTodoRepository.findAll`: `findMany` with
`orderBy: \x7b createdAt: 'desc' \x7d`. -/
def PrismaTodoRepository.findAll (db : PrismaDB) : List Todo :=
  sortDescBy Todo.createdAt db.rows

/-- `PrismaTodoRepository.findById`: `findUnique` then `if (!todo) return
null`. -/
def PrismaTodoRepository.findById (id : String) (db : PrismaDB) : Option Todo :=
  db.rows.find? (fun t => t.id == id)

/-- Modelled from the spec: the Prisma client's `update` "merges provided
fields into the existing record, refreshes `updatedAt`" and fails when the
id is absent; the `@updatedAt` attribute lives in the Prisma schema file,
which is not under `src/`. -/
def prismaClientUpdate (now : Nat) (id : String) (data : UpdateTodoInput)
    (db : PrismaDB) : Except String (Todo × PrismaDB) :=
  match db.rows.find? (fun t => t.id == id) with
  | none => Except.error ("Record to update not found: " ++ id)
  | some t =>
    let u := applyUpdateSet now data t
    Except.ok (u, ⟨db.rows.map (fun r => if r.id == id then u else r)⟩)

/-- `PrismaTodoRepository.update`: delegates to the Prisma client. -/
def PrismaTodoRepository.update (now : Nat) (id : String)
    (data : UpdateTodoInput) (db : PrismaDB) : Except String (Todo × PrismaDB) :=
  prismaClientUpdate now id data db

/-- `PrismaTodoRepository.findByTags`: `findMany` with
`tags: \x7b hasSome: tags \x7d` (at least one of `tags` occurs in the row's
tag array) ordered by `createdAt` descending. -/
def PrismaTodoRepository.findByTags (tags : List String) (db : PrismaDB) : List Todo :=
  sortDescBy Todo.createdAt
    (db.rows.filter (fun todo => tags.any (fun tag => todo.tags.contains tag)))

/-! ## MongooseTodoRepository (unnamed part_013)

Documents carry a `cuid` field that plays the repository id;
`mapDocumentToEntity` maps it back to `id` and omits `metadata`. -/

/-- A stored Mongo document for the Todo schema. -/
structure TodoDoc where
  cuid : String
  title : String
  description : Option String
  completed : Bool
  priority : Option String
  dueDate : Option Nat
  tags : List String
  metadata : Option (List (String × String))
  createdAt : Nat
  updatedAt : Nat
deriving Repr, DecidableEq

/-- `MongooseTodoRepository.mapDocumentToEntity`: renames `cuid` to `id`;
the returned object literal has no `metadata` key. -/
def mapDocumentToEntity (doc : TodoDoc) : Todo :=
  { id := doc.cuid
    title := doc.title
    description := doc.description
    completed := doc.completed
    priority := doc.priority
    dueDate := doc.dueDate
    tags := doc.tags
    metadata := none
    createdAt := doc.createdAt
    updatedAt := doc.updatedAt }

/-- `MongooseTodoRepository.findAll`: `find().sort(\x7b createdAt: -1 \x7d)`
— descending. -/
def MongooseTodoRepository.findAll (docs : List TodoDoc) : List Todo :=
  (sortDescBy TodoDoc.createdAt docs).map mapDocumentToEntity

/-- `MongooseTodoRepository.findById`: `findOne(\x7b cuid: id \x7d)`, then
`if (!todo) return null`. -/
def MongooseTodoRepository.findById (id : String) (docs : List TodoDoc) : Option Todo :=
  (docs.find? (fun d => d.cuid == id)).map mapDocumentToEntity

/-- `MongooseTodoRepository.delete`: `findOneAndDelete(\x7b cuid: id \x7d)`;
throws `Todo with id <id> not found` when no document matched. -/
def MongooseTodoRepository.delete (id : String) (docs : List TodoDoc) :
    Except String (Todo × List TodoDoc) :=
  match docs.find? (fun d => d.cuid == id) with
  | none => Except.error ("Todo with id " ++ id ++ " not found")
  | some d => Except.ok (mapDocumentToEntity d, docs.filter (fun x => !(x.cuid == id)))

/-- `MongooseTodoRepository.findByTags`: `find(\x7b tags: \x7b $in: tags \x7d \x7d)`
(any element of the document's tag array equals some requested tag),
sorted by `createdAt` descending. -/
def MongooseTodoRepository.findByTags (tags : List String) (docs : List TodoDoc) : List Todo :=
  (sortDescBy TodoDoc.createdAt
      (docs.filter (fun d => tags.any (fun tag => d.tags.contains tag)))).map
    mapDocumentToEntity

/-! ## UnifiedErrorTrackingService (repository.provider.ts, lines 96-107) -/

/-- Observable outcome of one `captureException` call: what escaped to the
caller, what was logged, and whether the active provider was invoked. -/
structure CaptureOutcome where
  thrownToCaller : Option String
  logged : List String
  providerInvoked : Bool
deriving Repr, DecidableEq

/-- `UnifiedErrorTrackingService.captureException`: with no active service
the call logs a debug line and returns; with an active service the
underlying `captureException` is called inside try/catch and a raised
failure is logged, never re-thrown. `active` carries the underlying
provider call as a function of the error and metadata, returning
`some thrown` when it raises and `none` when it succeeds. -/
def UnifiedErrorTrackingService.captureException
    (active : Option (String → Option (List (String × String)) → Option String))
    (error : String) (metadata : Option (List (String × String))) : CaptureOutcome :=
  match active with
  | none =>
    { thrownToCaller := none
      logged := ["No error tracking service available"]
      providerInvoked := false }
  | some call =>
    match call error metadata with
    | none => { thrownToCaller := none, logged := [], providerInvoked := true }
    | some err =>
      { thrownToCaller := none
        logged := ["Failed to capture exception: " ++ err]
        providerInvoked := true }

/-! ## ZodValidationPipe (unnamed part_007) -/

/-- `ArgumentMetadata.type` of the NestJS pipe interface. -/
inductive ArgType
  | body
  | query
  | param
  | custom
deriving Repr, DecidableEq

/-- One entry of a `ZodError`'s issue list. -/
structure ZodIssue where
  path : List String
  message : String
  code : String
deriving Repr, DecidableEq

/-- One formatted per-field error of the 400 response body. -/
structure FormattedIssue where
  field : String
  message : String
  code : String
deriving Repr, DecidableEq

/-- The `BadRequestException` payload thrown on validation failure. -/
structure ValidationErrorBody where
  message : String
  errors : List FormattedIssue
  statusCode : Nat
deriving Repr, DecidableEq

/-- `field: err.path.join('.')`, keeping message and code. -/
def formatIssue (err : ZodIssue) : FormattedIssue :=
  { field := String.intercalate "." err.path
    message := err.message
    code := err.code }

/-- `ZodValidationPipe.transform`: a non-body argument is returned
unchanged without touching the schema; a body argument is parsed, a
`ZodError` becoming a 400 `BadRequestException` with the formatted
issues. -/
def ZodValidationPipe.transform {α : Type}
    (schema : α → Except (List ZodIssue) α) (value : α) (metaType : ArgType) :
    Except ValidationErrorBody α :=
  if metaType ≠ ArgType.body then
    Except.ok value
  else
    match schema value with
    | Except.ok parsedValue => Except.ok parsedValue
    | Except.error issues =>
      Except.error
        { message := "Validation failed"
          errors := issues.map formatIssue
          statusCode := 400 }

/-! ## Helper lemmas about the sorting functions -/

theorem mem_insertAscBy {α : Type} (key : α → Nat) (t a : α) (l : List α) :
    a ∈ insertAscBy key t l ↔ a = t ∨ a ∈ l := by
  induction l with
  | nil => simp [insertAscBy]
  | cons u us ih =>
    by_cases h : key t ≤ key u
    · simp [insertAscBy, h]
    · simp only [insertAscBy, if_neg h, List.mem_cons, ih]
      tauto

theorem mem_sortAscBy {α : Type} (key : α → Nat) (a : α) (l : List α) :
    a ∈ sortAscBy key l ↔ a ∈ l := by
  induction l with
  | nil => simp [sortAscBy]
  | cons u us ih =>
    simp only [sortAscBy, List.foldr_cons] at ih ⊢
    rw [mem_insertAscBy, ih, List.mem_cons]

theorem mem_insertDescBy {α : Type} (key : α → Nat) (t a : α) (l : List α) :
    a ∈ insertDescBy key t l ↔ a = t ∨ a ∈ l := by
  induction l with
  | nil => simp [insertDescBy]
  | cons u us ih =>
    by_cases h : key u ≤ key t
    · simp [insertDescBy, h]
    · simp only [insertDescBy, if_neg h, List.mem_cons, ih]
      tauto

theorem mem_sortDescBy {α : Type} (key : α → Nat) (a : α) (l : List α) :
    a ∈ sortDescBy key l ↔ a ∈ l := by
  induction l with
  | nil => simp [sortDescBy]
  | cons u us ih =>
    simp only [sortDescBy, List.foldr_cons] at ih ⊢
    rw [mem_insertDescBy, ih, List.mem_cons]

/-! ## C1: enumerated-option validation reports only the first violation -/

/-- A startup environment in which both `DATABASE_PROVIDER` and
`CACHE_PROVIDER` hold illegal values. -/
def envTwoInvalid : Env :=
  ⟨fun n =>
    if n == "DATABASE_PROVIDER" then some "cockroach"
    else if n == "CACHE_PROVIDER" then some "memcached"
    else none⟩

/-- C1 counterexample: with `DATABASE_PROVIDER="cockroach"` and
`CACHE_PROVIDER="memcached"` both outside their legal sets, construction
fails with an error that names `DATABASE_PROVIDER` but does not mention the
equally invalid `CACHE_PROVIDER`, so the error does not list every invalid
option. -/
theorem c1_counterexample :
    (VALID_PROVIDERS_CACHE.contains (cfgGet envTwoInvalid "CACHE_PROVIDER" "redis")) = false
    ∧ (FeatureFlagsService.loadAndValidateConfig envTwoInvalid).isOk = false
    ∧ mentionsErr (FeatureFlagsService.loadAndValidateConfig envTwoInvalid)
        "DATABASE_PROVIDER" = true
    ∧ mentionsErr (FeatureFlagsService.loadAndValidateConfig envTwoInvalid)
        "CACHE_PROVIDER" = false := by
  decide

/-- C1 (amended): whenever at least one enumerated provider option holds a
value outside its fixed legal set, constructing the `FeatureFlagsService`
fails fatally, and the error is the message of the first invalid option in
the constructor's check order, not an aggregate of all of them. -/
theorem c1_first_invalid_reported (env : Env)
    (h : FeatureFlagsService.invalidEnumVars env ≠ []) :
    ∃ m, FeatureFlagsService.firstEnumError env = some m ∧
      FeatureFlagsService.loadAndValidateConfig env = Except.error m := by
  unfold FeatureFlagsService.firstEnumError FeatureFlagsService.loadAndValidateConfig
  cases h1 : FeatureFlagsService.getValidatedProvider env "DATABASE_PROVIDER"
      VALID_PROVIDERS_DATABASE "prisma-postgresql" with
  | error e => exact ⟨e, rfl, rfl⟩
  | ok v1 =>
  cases h2 : FeatureFlagsService.getValidatedProvider env "ERROR_TRACKING_PROVIDER"
      VALID_PROVIDERS_ERROR_TRACKING "none" with
  | error e => exact ⟨e, rfl, rfl⟩
  | ok v2 =>
  cases h3 : FeatureFlagsService.getValidatedProvider env "AUTH_PROVIDER"
      VALID_PROVIDERS_AUTH "composite" with
  | error e => exact ⟨e, rfl, rfl⟩
  | ok v3 =>
  cases h4 : FeatureFlagsService.getValidatedProvider env "CACHE_PROVIDER"
      VALID_PROVIDERS_CACHE "redis" with
  | error e => exact ⟨e, rfl, rfl⟩
  | ok v4 =>
  cases h5 : FeatureFlagsService.getValidatedProvider env "DOCUMENTATION_PROVIDER"
      VALID_PROVIDERS_DOCUMENTATION "swagger" with
  | error e => exact ⟨e, rfl, rfl⟩
  | ok v5 =>
  cases h6 : FeatureFlagsService.getValidatedProvider env "LOGGING_PROVIDER"
      VALID_PROVIDERS_LOGGING "basic" with
  | error e => exact ⟨e, rfl, rfl⟩
  | ok v6 =>
  cases h7 : FeatureFlagsService.getValidatedProvider env "PERFORMANCE_PROVIDER"
      VALID_PROVIDERS_PERFORMANCE "basic" with
  | error e => exact ⟨e, rfl, rfl⟩
  | ok v7 =>
    exfalso
    apply h
    have c1 : cfgGet env "DATABASE_PROVIDER" "prisma-postgresql" ∈ VALID_PROVIDERS_DATABASE := by
      by_cases hc : cfgGet env "DATABASE_PROVIDER" "prisma-postgresql" ∈ VALID_PROVIDERS_DATABASE
      · exact hc
      · simp [FeatureFlagsService.getValidatedProvider, hc] at h1
    have c2 : cfgGet env "ERROR_TRACKING_PROVIDER" "none" ∈ VALID_PROVIDERS_ERROR_TRACKING := by
      by_cases hc : cfgGet env "ERROR_TRACKING_PROVIDER" "none" ∈ VALID_PROVIDERS_ERROR_TRACKING
      · exact hc
      · simp [FeatureFlagsService.getValidatedProvider, hc] at h2
    have c3 : cfgGet env "AUTH_PROVIDER" "composite" ∈ VALID_PROVIDERS_AUTH := by
      by_cases hc : cfgGet env "AUTH_PROVIDER" "composite" ∈ VALID_PROVIDERS_AUTH
      · exact hc
      · simp [FeatureFlagsService.getValidatedProvider, hc] at h3
    have c4 : cfgGet env "CACHE_PROVIDER" "redis" ∈ VALID_PROVIDERS_CACHE := by
      by_cases hc : cfgGet env "CACHE_PROVIDER" "redis" ∈ VALID_PROVIDERS_CACHE
      · exact hc
      · simp [FeatureFlagsService.getValidatedProvider, hc] at h4
    have c5 : cfgGet env "DOCUMENTATION_PROVIDER" "swagger" ∈ VALID_PROVIDERS_DOCUMENTATION := by
      by_cases hc : cfgGet env "DOCUMENTATION_PROVIDER" "swagger" ∈ VALID_PROVIDERS_DOCUMENTATION
      · exact hc
      · simp [FeatureFlagsService.getValidatedProvider, hc] at h5
    have c6 : cfgGet env "LOGGING_PROVIDER" "basic" ∈ VALID_PROVIDERS_LOGGING := by
      by_cases hc : cfgGet env "LOGGING_PROVIDER" "basic" ∈ VALID_PROVIDERS_LOGGING
      · exact hc
      · simp [FeatureFlagsService.getValidatedProvider, hc] at h6
    have c7 : cfgGet env "PERFORMANCE_PROVIDER" "basic" ∈ VALID_PROVIDERS_PERFORMANCE := by
      by_cases hc : cfgGet env "PERFORMANCE_PROVIDER" "basic" ∈ VALID_PROVIDERS_PERFORMANCE
      · exact hc
      · simp [FeatureFlagsService.getValidatedProvider, hc] at h7
    simp [FeatureFlagsService.invalidEnumVars, c1, c2, c3, c4, c5, c6, c7]

/-- A startup environment whose only illegal option is
`DATABASE_PROVIDER="sqlite"`. -/
def envBadDatabase : Env :=
  ⟨fun n => if n == "DATABASE_PROVIDER" then some "sqlite" else none⟩

/-- Witness for `c1_first_invalid_reported` at a concrete environment. -/
theorem c1_first_invalid_reported_witness :
    FeatureFlagsService.invalidEnumVars envBadDatabase ≠ [] ∧
      (∃ m, FeatureFlagsService.firstEnumError envBadDatabase = some m ∧
        FeatureFlagsService.loadAndValidateConfig envBadDatabase = Except.error m) :=
  ⟨by decide, c1_first_invalid_reported envBadDatabase (by decide)⟩

/-! ## C2: delete on an absent id -/

/-- A concrete stored record used in the delete examples. -/
def todoKeep : Todo :=
  ⟨"keep", "kept todo", none, false, some "medium", none, [], none, 5, 5⟩

/-- C2 counterexample: deleting the absent id `"missing"` from a Drizzle
store holding one unrelated record raises no error at all: it returns the
absent value (`undefined`, here `none`) and leaves the store unchanged, so
the Drizzle implementation does not fail with a not-found condition. -/
theorem c2_counterexample :
    DrizzleTodoRepository.delete "missing" ⟨[todoKeep]⟩ = (none, ⟨[todoKeep]⟩) := by
  decide

/-- C2 (amended): on an absent id the Mongoose implementation fails with
the not-found error `Todo with id <id> not found`, but the Drizzle
implementation silently no-ops, returning `undefined` (here `none`) with
the store unchanged. -/
theorem c2_delete_absent (id : String) (db : DrizzleDB) (docs : List TodoDoc)
    (h1 : ∀ t ∈ db.rows, t.id ≠ id) (h2 : ∀ d ∈ docs, d.cuid ≠ id) :
    DrizzleTodoRepository.delete id db = (none, db) ∧
      MongooseTodoRepository.delete id docs =
        Except.error ("Todo with id " ++ id ++ " not found") := by
  constructor
  · unfold DrizzleTodoRepository.delete
    have hfil : db.rows.filter (fun t => t.id == id) = [] := by
      rw [List.filter_eq_nil_iff]
      intro a ha
      simp [h1 a ha]
    have hkeep : db.rows.filter (fun t => !(t.id == id)) = db.rows := by
      rw [List.filter_eq_self]
      intro a ha
      simp [h1 a ha]
    rw [hfil, hkeep]
    rfl
  · unfold MongooseTodoRepository.delete
    have hfind : docs.find? (fun d => d.cuid == id) = none := by
      rw [List.find?_eq_none]
      intro a ha
      simp [h2 a ha]
    rw [hfind]

/-- Witness for `c2_delete_absent` at a concrete store and id. -/
theorem c2_delete_absent_witness :
    DrizzleTodoRepository.delete "ghost" ⟨[todoKeep]⟩ = (none, ⟨[todoKeep]⟩) ∧
      MongooseTodoRepository.delete "ghost" [] =
        Except.error ("Todo with id " ++ "ghost" ++ " not found") :=
  c2_delete_absent "ghost" ⟨[todoKeep]⟩ [] (by decide) (by decide)

/-! ## C3: findAll ordering -/

/-- An older record (`createdAt = 1`). -/
def todoOld : Todo :=
  ⟨"old", "older todo", none, false, some "medium", none, [], none, 1, 1⟩

/-- A newer record (`createdAt = 2`). -/
def todoNew : Todo :=
  ⟨"new", "newer todo", none, false, some "medium", none, [], none, 2, 2⟩

/-- The older record as a Mongo document. -/
def docOld : TodoDoc :=
  ⟨"old", "older todo", none, false, some "medium", none, [], none, 1, 1⟩

/-- The newer record as a Mongo document. -/
def docNew : TodoDoc :=
  ⟨"new", "newer todo", none, false, some "medium", none, [], none, 2, 2⟩

/-- C3: on a store holding an older (`createdAt = 1`) and a newer
(`createdAt = 2`) record, the Prisma and Mongoose `findAll` return the
records newest-created first, but the Drizzle `findAll` (whose `orderBy`
lacks `desc`) returns them oldest first — diverging from the documented
newest-first ordering. -/
theorem c3_drizzle_findAll_oldest_first :
    DrizzleTodoRepository.findAll ⟨[todoOld, todoNew]⟩ = [todoOld, todoNew] ∧
      PrismaTodoRepository.findAll ⟨[todoOld, todoNew]⟩ = [todoNew, todoOld] ∧
      MongooseTodoRepository.findAll [docOld, docNew] =
        [mapDocumentToEntity docNew, mapDocumentToEntity docOld] ∧
      DrizzleTodoRepository.findAll ⟨[todoOld, todoNew]⟩ ≠ [todoNew, todoOld] := by
  decide

/-! ## C4: schema defaults reach the created record -/

/-- C4: for every valid create body that omits `completed`, `priority` and
`tags`, the record returned by the Drizzle and the Prisma `create` (on the
schema-validated input) has `completed = false`, `priority = "medium"` and
`tags = []`. -/
theorem c4_create_defaults (raw : RawCreateInput) (v : ValidatedCreate)
    (now : Nat) (genId : String) (ddb : DrizzleDB) (pdb : PrismaDB)
    (hparse : CreateTodoSchema.parse raw = Except.ok v)
    (hc : raw.completed = none) (hp : raw.priority = none) (ht : raw.tags = none) :
    ((DrizzleTodoRepository.create now genId v.toInput ddb).fst.completed = false ∧
      (DrizzleTodoRepository.create now genId v.toInput ddb).fst.priority = some "medium" ∧
      (DrizzleTodoRepository.create now genId v.toInput ddb).fst.tags = []) ∧
    ((PrismaTodoRepository.create now genId v.toInput pdb).fst.completed = false ∧
      (PrismaTodoRepository.create now genId v.toInput pdb).fst.priority = some "medium" ∧
      (PrismaTodoRepository.create now genId v.toInput pdb).fst.tags = []) := by
  have hv : v.completed = false ∧ v.priority = "medium" ∧ v.tags = [] := by
    simp only [CreateTodoSchema.parse] at hparse
    split at hparse
    · injection hparse with hv'
      rw [← hv']
      simp [hc, hp, ht]
    · simp at hparse
  simp [DrizzleTodoRepository.create, PrismaTodoRepository.create, ValidatedCreate.toInput,
    hv.1, hv.2.1, hv.2.2]

/-- The body of `POST /api/todos { "title": "Learn X" }`. -/
def rawLearn : RawCreateInput :=
  ⟨some "Learn X", none, none, none, none, none, none⟩

/-- The validated DTO the schema produces for `rawLearn`. -/
def vLearn : ValidatedCreate :=
  ⟨"Learn X", none, false, "medium", none, [], none⟩

/-- Witness for `c4_create_defaults` at a concrete body and stores. -/
theorem c4_create_defaults_witness :
    CreateTodoSchema.parse rawLearn = Except.ok vLearn ∧
      (((DrizzleTodoRepository.create 3 "cid1" vLearn.toInput ⟨[]⟩).fst.completed = false ∧
        (DrizzleTodoRepository.create 3 "cid1" vLearn.toInput ⟨[]⟩).fst.priority = some "medium" ∧
        (DrizzleTodoRepository.create 3 "cid1" vLearn.toInput ⟨[]⟩).fst.tags = []) ∧
      ((PrismaTodoRepository.create 3 "cid1" vLearn.toInput ⟨[]⟩).fst.completed = false ∧
        (PrismaTodoRepository.create 3 "cid1" vLearn.toInput ⟨[]⟩).fst.priority = some "medium" ∧
        (PrismaTodoRepository.create 3 "cid1" vLearn.toInput ⟨[]⟩).fst.tags = [])) :=
  ⟨rfl, c4_create_defaults rawLearn vLearn 3 "cid1" ⟨[]⟩ ⟨[]⟩ rfl rfl rfl rfl⟩

/-! ## C5: findById on an absent id returns null, never throws -/

/-- C5: in every repository implementation, `findById` on an id that no
stored record carries evaluates to the not-found sentinel `none`; the
operations' result type has no failure channel, so no exception can be
raised. -/
theorem c5_findById_absent (id : String) (ddb : DrizzleDB) (pdb : PrismaDB)
    (docs : List TodoDoc)
    (h1 : ∀ t ∈ ddb.rows, t.id ≠ id) (h2 : ∀ t ∈ pdb.rows, t.id ≠ id)
    (h3 : ∀ d ∈ docs, d.cuid ≠ id) :
    DrizzleTodoRepository.findById id ddb = none ∧
      PrismaTodoRepository.findById id pdb = none ∧
      MongooseTodoRepository.findById id docs = none := by
  refine ⟨?_, ?_, ?_⟩
  · unfold DrizzleTodoRepository.findById
    have hfil : ddb.rows.filter (fun t => t.id == id) = [] := by
      rw [List.filter_eq_nil_iff]
      intro a ha
      simp [h1 a ha]
    rw [hfil]
    rfl
  · unfold PrismaTodoRepository.findById
    rw [List.find?_eq_none]
    intro a ha
    simp [h2 a ha]
  · unfold MongooseTodoRepository.findById
    have hfind : docs.find? (fun d => d.cuid == id) = none := by
      rw [List.find?_eq_none]
      intro a ha
      simp [h3 a ha]
    rw [hfind]
    rfl

/-- Witness for `c5_findById_absent` at concrete stores. -/
theorem c5_findById_absent_witness :
    DrizzleTodoRepository.findById "nope" ⟨[todoOld]⟩ = none ∧
      PrismaTodoRepository.findById "nope" ⟨[todoNew]⟩ = none ∧
      MongooseTodoRepository.findById "nope" [docOld] = none :=
  c5_findById_absent "nope" ⟨[todoOld]⟩ ⟨[todoNew]⟩ [docOld]
    (by decide) (by decide) (by decide)

/-! ## C6: the empty patch refreshes only updatedAt -/

/-- C6: when a record `t` is present (the first match for its id), the
Drizzle and Prisma `update` with the empty patch return exactly
`t` with `updatedAt` replaced by the update time — every other field
unchanged — and, the clock having advanced past the stored `updatedAt`,
the new `updatedAt` is strictly greater than the old. -/
theorem c6_empty_patch (now : Nat) (id : String) (t : Todo)
    (ddb : DrizzleDB) (pdb : PrismaDB)
    (hd : (ddb.rows.filter (fun r => r.id == id)).head? = some t)
    (hp : pdb.rows.find? (fun r => r.id == id) = some t)
    (hclock : t.updatedAt < now) :
    (DrizzleTodoRepository.update now id emptyUpdate ddb).fst =
        some (applyUpdateSet now emptyUpdate t) ∧
      PrismaTodoRepository.update now id emptyUpdate pdb =
        Except.ok (applyUpdateSet now emptyUpdate t,
          ⟨pdb.rows.map (fun r =>
            if r.id == id then applyUpdateSet now emptyUpdate t else r)⟩) ∧
      applyUpdateSet now emptyUpdate t = { t with updatedAt := now } ∧
      t.updatedAt < (applyUpdateSet now emptyUpdate t).updatedAt := by
  refine ⟨?_, ?_, rfl, hclock⟩
  · show (List.map (applyUpdateSet now emptyUpdate)
        (List.filter (fun r => r.id == id) ddb.rows)).head? =
      some (applyUpdateSet now emptyUpdate t)
    rw [List.head?_map, hd]
    rfl
  · unfold PrismaTodoRepository.update prismaClientUpdate
    rw [hp]

/-- A stored record with `updatedAt = 1`, awaiting its empty patch. -/
def todoStale : Todo :=
  ⟨"stale", "stale todo", some "d", true, some "high", some 9, ["x"], none, 1, 1⟩

/-- Witness for `c6_empty_patch` at a concrete record and stores. -/
theorem c6_empty_patch_witness :
    (DrizzleTodoRepository.update 2 "stale" emptyUpdate ⟨[todoStale]⟩).fst =
        some (applyUpdateSet 2 emptyUpdate todoStale) ∧
      PrismaTodoRepository.update 2 "stale" emptyUpdate ⟨[todoStale]⟩ =
        Except.ok (applyUpdateSet 2 emptyUpdate todoStale,
          ⟨[todoStale].map (fun r =>
            if r.id == "stale" then applyUpdateSet 2 emptyUpdate todoStale else r)⟩) ∧
      applyUpdateSet 2 emptyUpdate todoStale = { todoStale with updatedAt := 2 } ∧
      todoStale.updatedAt < (applyUpdateSet 2 emptyUpdate todoStale).updatedAt :=
  c6_empty_patch 2 "stale" todoStale ⟨[todoStale]⟩ ⟨[todoStale]⟩
    (by decide) (by decide) (by decide)

/-! ## C7: findByTags is any-match intersection -/

/-- C7: in all three implementations, `findByTags(tags)` returns exactly
the stored records whose tag list shares at least one element with `tags`
(any-match); in particular the empty input list selects nothing, so every
implementation returns the empty result set there. -/
theorem c7_findByTags_intersection (ddb : DrizzleDB) (pdb : PrismaDB)
    (docs : List TodoDoc) (tags : List String) :
    (∀ t : Todo, t ∈ DrizzleTodoRepository.findByTags tags ddb ↔
      t ∈ ddb.rows ∧ tags.any (fun tag => t.tags.contains tag) = true) ∧
    (∀ t : Todo, t ∈ PrismaTodoRepository.findByTags tags pdb ↔
      t ∈ pdb.rows ∧ tags.any (fun tag => t.tags.contains tag) = true) ∧
    (∀ e : Todo, e ∈ MongooseTodoRepository.findByTags tags docs ↔
      ∃ d, (d ∈ docs ∧ tags.any (fun tag => d.tags.contains tag) = true) ∧
        mapDocumentToEntity d = e) ∧
    (DrizzleTodoRepository.findByTags [] ddb = [] ∧
      PrismaTodoRepository.findByTags [] pdb = [] ∧
      MongooseTodoRepository.findByTags [] docs = []) := by
  refine ⟨?_, ?_, ?_, ?_, ?_, ?_⟩
  · intro t
    unfold DrizzleTodoRepository.findByTags
    rw [List.mem_filter, mem_sortAscBy]
  · intro t
    unfold PrismaTodoRepository.findByTags
    rw [mem_sortDescBy, List.mem_filter]
  · intro e
    unfold MongooseTodoRepository.findByTags
    constructor
    · intro he
      rcases List.mem_map.mp he with ⟨d, hd, hde⟩
      rw [mem_sortDescBy, List.mem_filter] at hd
      exact ⟨d, hd, hde⟩
    · intro hd
      rcases hd with ⟨d, hd, hde⟩
      refine List.mem_map.mpr ⟨d, ?_, hde⟩
      rw [mem_sortDescBy, List.mem_filter]
      exact hd
  · unfold DrizzleTodoRepository.findByTags
    rw [List.filter_eq_nil_iff]
    intro a _
    simp
  · unfold PrismaTodoRepository.findByTags
    have hfil : pdb.rows.filter
        (fun todo => [].any (fun tag => todo.tags.contains tag)) = [] := by
      rw [List.filter_eq_nil_iff]
      intro a _
      simp
    rw [hfil]
    rfl
  · unfold MongooseTodoRepository.findByTags
    have hfil : docs.filter
        (fun d => [].any (fun tag => d.tags.contains tag)) = [] := by
      rw [List.filter_eq_nil_iff]
      intro a _
      simp
    rw [hfil]
    rfl

/-! ## C8: cross-field rules abort startup with an aggregated error -/

/-- C8: whenever a required cross-field combination is violated — the
mongoose database provider without `MONGODB_URL`, a PostgreSQL database
provider without `DATABASE_URL`, or the redis cache provider without
`REDIS_HOST` — `validateConfiguration` throws, and every violated rule's
message is a member of the aggregated errors list that makes up the single
thrown error message. -/
theorem c8_cross_field_aggregated (env : Env) (cfg : FeatureFlagsConfig)
    (h : (cfg.database = "mongoose-mongodb" ∧ flagBlank env "MONGODB_URL" = true)
      ∨ ((cfg.database = "prisma-postgresql" ∨ cfg.database = "drizzle-postgresql")
          ∧ flagBlank env "DATABASE_URL" = true)
      ∨ (cfg.cache = "redis" ∧ flagBlank env "REDIS_HOST" = true)) :
    FeatureFlagsService.validateConfiguration env cfg =
        Except.error (aggregateErrorMessage (validateConfigurationErrors env cfg)) ∧
      ((cfg.database = "mongoose-mongodb" ∧ flagBlank env "MONGODB_URL" = true) →
        "MONGODB_URL is required when using mongoose-mongodb database provider"
          ∈ validateConfigurationErrors env cfg) ∧
      (((cfg.database = "prisma-postgresql" ∨ cfg.database = "drizzle-postgresql")
          ∧ flagBlank env "DATABASE_URL" = true) →
        "DATABASE_URL is required when using PostgreSQL database providers"
          ∈ validateConfigurationErrors env cfg) ∧
      ((cfg.cache = "redis" ∧ flagBlank env "REDIS_HOST" = true) →
        "REDIS_HOST is required when using redis cache provider"
          ∈ validateConfigurationErrors env cfg) := by
  have hm : (cfg.database = "mongoose-mongodb" ∧ flagBlank env "MONGODB_URL" = true) →
      "MONGODB_URL is required when using mongoose-mongodb database provider"
        ∈ validateConfigurationErrors env cfg := by
    rintro ⟨hdb, hurl⟩
    simp [validateConfigurationErrors, mongoErrors, hdb, hurl, List.mem_append]
  have hpg : ((cfg.database = "prisma-postgresql" ∨ cfg.database = "drizzle-postgresql")
      ∧ flagBlank env "DATABASE_URL" = true) →
      "DATABASE_URL is required when using PostgreSQL database providers"
        ∈ validateConfigurationErrors env cfg := by
    rintro ⟨hdb | hdb, hurl⟩ <;>
      simp [validateConfigurationErrors, pgErrors, hdb, hurl, List.mem_append]
  have hr : (cfg.cache = "redis" ∧ flagBlank env "REDIS_HOST" = true) →
      "REDIS_HOST is required when using redis cache provider"
        ∈ validateConfigurationErrors env cfg := by
    rintro ⟨hc, hurl⟩
    simp [validateConfigurationErrors, redisErrors, hc, hurl, List.mem_append]
  have hne : validateConfigurationErrors env cfg ≠ [] := by
    rcases h with h' | h' | h'
    · exact List.ne_nil_of_mem (hm h')
    · exact List.ne_nil_of_mem (hpg h')
    · exact List.ne_nil_of_mem (hr h')
  have hie : (validateConfigurationErrors env cfg).isEmpty = false := by
    cases hl : validateConfigurationErrors env cfg with
    | nil => exact absurd hl hne
    | cons a as => rfl
  exact ⟨by simp [FeatureFlagsService.validateConfiguration, hie], hm, hpg, hr⟩

/-- A startup environment with none of the connection variables set. -/
def envNoUrls : Env := ⟨fun _ => none⟩

/-- A configuration selecting the mongoose database and the redis cache. -/
def cfgMongoRedis : FeatureFlagsConfig :=
  ⟨"mongoose-mongodb", "none", "none", "redis", "swagger", "basic", "basic"⟩

/-- Witness for `c8_cross_field_aggregated` at a concrete environment and
configuration violating two cross-field rules at once. -/
theorem c8_cross_field_aggregated_witness :
    FeatureFlagsService.validateConfiguration envNoUrls cfgMongoRedis =
        Except.error
          (aggregateErrorMessage (validateConfigurationErrors envNoUrls cfgMongoRedis)) ∧
      ((cfgMongoRedis.database = "mongoose-mongodb"
          ∧ flagBlank envNoUrls "MONGODB_URL" = true) →
        "MONGODB_URL is required when using mongoose-mongodb database provider"
          ∈ validateConfigurationErrors envNoUrls cfgMongoRedis) ∧
      (((cfgMongoRedis.database = "prisma-postgresql"
          ∨ cfgMongoRedis.database = "drizzle-postgresql")
          ∧ flagBlank envNoUrls "DATABASE_URL" = true) →
        "DATABASE_URL is required when using PostgreSQL database providers"
          ∈ validateConfigurationErrors envNoUrls cfgMongoRedis) ∧
      ((cfgMongoRedis.cache = "redis" ∧ flagBlank envNoUrls "REDIS_HOST" = true) →
        "REDIS_HOST is required when using redis cache provider"
          ∈ validateConfigurationErrors envNoUrls cfgMongoRedis) :=
  c8_cross_field_aggregated envNoUrls cfgMongoRedis (Or.inl ⟨rfl, rfl⟩)

/-! ## C9: captureException never throws to its caller -/

/-- C9: for every error, metadata and active provider (including none),
the unified `captureException` lets nothing escape to its caller; with no
active provider it is a no-op that never invokes a provider, and a failure
raised by the underlying provider call is logged locally. -/
theorem c9_captureException_never_throws
    (active : Option (String → Option (List (String × String)) → Option String))
    (error : String) (metadata : Option (List (String × String))) :
    (UnifiedErrorTrackingService.captureException active error metadata).thrownToCaller
        = none ∧
      (active = none →
        (UnifiedErrorTrackingService.captureException active error metadata).providerInvoked
          = false) ∧
      (∀ call m, active = some call → call error metadata = some m →
        (UnifiedErrorTrackingService.captureException active error metadata).logged
          = ["Failed to capture exception: " ++ m]) := by
  cases active with
  | none => exact ⟨rfl, fun _ => rfl, fun call m hc _ => Option.noConfusion hc⟩
  | some call =>
    refine ⟨?_, ?_, ?_⟩
    · cases hcall : call error metadata <;>
        simp [UnifiedErrorTrackingService.captureException, hcall]
    · intro h
      cases h
    · intro call' m hc hm
      injection hc with hc'
      subst hc'
      simp [UnifiedErrorTrackingService.captureException, hm]

/-- An underlying provider call that always raises. -/
def failCall : String → Option (List (String × String)) → Option String :=
  fun _ _ => some "boom"

/-- Witness for `c9_captureException_never_throws` at concrete inputs:
a failing provider call and the no-provider case. -/
theorem c9_captureException_never_throws_witness :
    (UnifiedErrorTrackingService.captureException (some failCall) "err" none).thrownToCaller
        = none ∧
      (UnifiedErrorTrackingService.captureException none "err" none).providerInvoked
        = false ∧
      (UnifiedErrorTrackingService.captureException (some failCall) "err" none).logged
        = ["Failed to capture exception: " ++ "boom"] :=
  ⟨(c9_captureException_never_throws (some failCall) "err" none).1,
    (c9_captureException_never_throws none "err" none).2.1 rfl,
    (c9_captureException_never_throws (some failCall) "err" none).2.2 failCall "boom" rfl rfl⟩

/-! ## C10: the Zod pipe validates only body arguments -/

/-- C10: for every schema, value and argument kind other than `body`, the
pipe's `transform` returns the value unchanged without applying the
schema; consequently only body arguments can ever be rejected with the 400
validation error. -/
theorem c10_pipe_validates_only_body {α : Type}
    (schema : α → Except (List ZodIssue) α) (value : α) (metaType : ArgType) :
    (metaType ≠ ArgType.body →
      ZodValidationPipe.transform schema value metaType = Except.ok value) ∧
    (∀ e, ZodValidationPipe.transform schema value metaType = Except.error e →
      metaType = ArgType.body) := by
  by_cases h : metaType = ArgType.body
  · exact ⟨fun hne => absurd h hne, fun e _ => h⟩
  · constructor
    · intro _
      simp [ZodValidationPipe.transform, h]
    · intro e he
      simp [ZodValidationPipe.transform, h] at he

/-- A schema rejecting every value. -/
def rejectAll : Nat → Except (List ZodIssue) Nat :=
  fun _ => Except.error [⟨["value"], "bad", "custom"⟩]

/-- Witness for `c10_pipe_validates_only_body`: a query argument passes
through a schema that rejects everything. -/
theorem c10_pipe_validates_only_body_witness :
    ZodValidationPipe.transform rejectAll 5 ArgType.query = Except.ok 5 :=
  (c10_pipe_validates_only_body rejectAll 5 ArgType.query).1 (by decide)
